import Mathlib

/-!
Shallow embedding of the shopify-landing-page backend (Express server in
`src/unnamed/part_001`, email service in `src/utils/emailService.js`).

The server exposes:
* `POST /api/contact`   — validation, reCAPTCHA gate, 1-hour duplicate
  window, persistence, fire-and-forget email notifications;
* `GET /api/contacts`   — paginated listing sorted by `submittedAt` desc;
* `PATCH /api/contacts/:id/status` — status update with an enum guard.

Timestamps are modelled as `Int` milliseconds (JS `Date.now()`), the Mongo
store as a list of records plus an id counter, and the external effects
(reCAPTCHA HTTP call, SMTP sends) as explicit outcome parameters.
-/

namespace ShopifyLanding

/-- One stored record of the `Contact` mongoose model (part_001 lines 65–109):
name, email (lowercased by the schema), phone, message, formType,
`submittedAt` defaulting to now, `status` defaulting to `"new"`. -/
structure Submission where
  id : Nat
  name : String
  email : String
  phone : String
  message : String
  formType : String
  submittedAt : Int
  status : String
deriving Repr, DecidableEq

/-- The Mongo collection: stored records plus the id the store will assign
to the next inserted document. -/
structure Store where
  recs : List Submission
  nextId : Nat
deriving Repr, DecidableEq

/-- The body of a `POST /api/contact` request. -/
structure ContactRequest where
  name : String
  email : String
  phone : String
  message : String
  formType : String
  recaptchaToken : String
deriving Repr, DecidableEq

/-- The process environment bits the pipeline reads: `NODE_ENV`,
`RECAPTCHA_SECRET_KEY`, `SMTP_USER`, `SMTP_PASS`. -/
structure Env where
  nodeEnvDevelopment : Bool
  recaptchaSecret : Option String
  smtpUser : Bool
  smtpPass : Bool
deriving Repr, DecidableEq

/-! ### Field validation (part_001 lines 112–138)

`validateContactForm` is an express-validator chain; sanitizers (`trim`,
`normalizeEmail`) rewrite `req.body` and every failing validator appends
one error, so the route handler sees all violations collected together. -/

/-- Whitespace as matched by the `\s` class in the name regex. -/
def isJsSpace (c : Char) : Bool :=
  c == ' ' || c == '\t' || c == '\n' || c == '\r'

/-- JS `String.prototype.trim`: strip whitespace from both ends. -/
def jsTrim (s : String) : String :=
  ⟨((s.data.dropWhile isJsSpace).reverse.dropWhile isJsSpace).reverse⟩

def lowerChar (c : Char) : Char :=
  if ('A' ≤ c) && (c ≤ 'Z') then Char.ofNat (c.toNat + 32) else c

/-- ASCII lowercasing, as applied by `normalizeEmail` and by the mongoose
`lowercase: true` setter on the email path. -/
def toLowerStr (s : String) : String := ⟨s.data.map lowerChar⟩

/-- Split a character list at every occurrence of `sep`. -/
def splitOnChar (sep : Char) : List Char → List (List Char)
  | [] => [[]]
  | c :: cs =>
    match splitOnChar sep cs with
    | [] => if c == sep then [[], []] else [[c]]
    | r :: rs => if c == sep then [] :: r :: rs else (c :: r) :: rs

/-- A character allowed by the name rule `^[a-zA-Z\s]+$`. -/
def isNameChar (c : Char) : Bool :=
  (('a' ≤ c) && (c ≤ 'z')) || (('A' ≤ c) && (c ≤ 'Z')) || isJsSpace c

/-- The regex `^[a-zA-Z\s]+$` on the name field. -/
def matchesNamePattern (s : String) : Bool :=
  !s.isEmpty && s.toList.all isNameChar

def isDigitChar (c : Char) : Bool := ('0' ≤ c) && (c ≤ '9')

/-- The regex `^[0-9]{10}$` on the phone field. -/
def matchesPhonePattern (s : String) : Bool :=
  s.length == 10 && s.toList.all isDigitChar

/-- Models validator.js `isEmail` (an external library) at the granularity
the pipeline needs: a single at-sign separating a nonempty local part from
a nonempty domain that contains a dot, with no whitespace anywhere. -/
def isEmail (s : String) : Bool :=
  match splitOnChar '@' s.data with
  | [loc, domain] =>
      !loc.isEmpty && !domain.isEmpty && domain.contains '.' &&
      s.data.all (fun c => !isJsSpace c)
  | _ => false

/-- The sanitizers in the chain: `trim()` on name/email/phone/message and
`normalizeEmail()` (which lowercases the address; its `all_lowercase`
default). They mutate `req.body`, so the handler reads these values. -/
def sanitize (r : ContactRequest) : ContactRequest :=
  { r with
    name := jsTrim r.name
    email := toLowerStr (jsTrim r.email)
    phone := jsTrim r.phone
    message := jsTrim r.message }

/-- One entry of `errors.array()`: the offending field and its message. -/
structure FieldError where
  field : String
  msg : String
deriving Repr, DecidableEq

def nameErrors (name : String) : List FieldError :=
  (if !(3 ≤ name.length && name.length ≤ 100) then
    [⟨"name", "Name must be between 2 and 100 characters"⟩] else []) ++
  (if !matchesNamePattern name then
    [⟨"name", "Name can only contain letters and spaces"⟩] else [])

def emailErrors (email : String) : List FieldError :=
  (if !isEmail email then
    [⟨"email", "Please provide a valid email address"⟩] else []) ++
  (if !(email.length ≤ 255) then [⟨"email", "Email is too long"⟩] else [])

def phoneErrors (phone : String) : List FieldError :=
  if !matchesPhonePattern phone then
    [⟨"phone", "Phone number must be exactly 10 digits"⟩] else []

def messageErrors (message : String) : List FieldError :=
  if !(10 ≤ message.length && message.length ≤ 1000) then
    [⟨"message", "Message must be between 10 and 1000 characters"⟩] else []

def formTypeErrors (formType : String) : List FieldError :=
  if !(formType == "hero" || formType == "final") then
    [⟨"formType", "Invalid form type"⟩] else []

def tokenErrors (token : String) : List FieldError :=
  if token.isEmpty then
    [⟨"recaptchaToken", "Please complete the captcha verification"⟩] else []

/-- All violations of the chain, collected in chain order, evaluated on the
already-sanitized request. -/
def validateContactForm (r : ContactRequest) : List FieldError :=
  nameErrors r.name ++ emailErrors r.email ++ phoneErrors r.phone ++
  messageErrors r.message ++ formTypeErrors r.formType ++
  tokenErrors r.recaptchaToken

/-! ### reCAPTCHA verification (part_001 lines 141–176) -/

/-- Outcome of the `axios.post` call to the verification service: a reply
carrying the service verdict, or a transport/timeout error. -/
inductive ExtResult where
  | ok (success : Bool)
  | err
deriving Repr, DecidableEq

/-- The three recognized bypass sentinels. -/
def isBypassToken (t : String) : Bool :=
  t == "development_token" || t == "fallback_token" || t == "test_token"

/-- `verifyRecaptcha`: skip in development; allow bypass sentinels; allow
when no secret is configured; otherwise ask the service; the catch block
returns `NODE_ENV === "development"`. -/
def verifyRecaptcha (env : Env) (ext : ExtResult) (token : String) : Bool :=
  if env.nodeEnvDevelopment then true
  else if isBypassToken token then true
  else
    match env.recaptchaSecret with
    | none => true
    | some _ =>
      match ext with
      | .ok success => success
      | .err => env.nodeEnvDevelopment

/-! ### The email service (`src/utils/emailService.js`)

`ensureTransporter` is false when `SMTP_USER`/`SMTP_PASS` are missing, in
which case each send is a no-op that resolves successfully; otherwise the
send may fail, and the failure propagates as a rejected promise (the route
attaches an independent `.catch` to each). -/

def smtpConfigured (env : Env) : Bool := env.smtpUser && env.smtpPass

/-- `EmailService.sendContactNotification`: no-op success when the
transporter is not configured; otherwise the outcome of the SMTP send. -/
def sendContactNotification (configured sendFails : Bool) : Except String Unit :=
  if !configured then .ok ()
  else if sendFails then .error "Error sending contact notification email"
  else .ok ()

/-- `EmailService.sendAutoReply`: same shape, to the submitter address. -/
def sendAutoReply (configured sendFails : Bool) : Except String Unit :=
  if !configured then .ok ()
  else if sendFails then .error "Error sending auto-reply email"
  else .ok ()

/-! ### POST /api/contact (part_001 lines 210–318) -/

/-- The response of the submission route, one constructor per exit. -/
inductive SubmitResult where
  | validationFailed (errors : List FieldError)
  | spamRejected
  | duplicate
  | created (id : Nat) (submittedAt : Int) (formType : String)
deriving Repr, DecidableEq

def SubmitResult.httpStatus : SubmitResult → Nat
  | .validationFailed _ => 400
  | .spamRejected => 400
  | .duplicate => 429
  | .created _ _ _ => 201

def SubmitResult.httpMessage : SubmitResult → String
  | .validationFailed _ => "Validation failed"
  | .spamRejected => "Captcha verification failed. Please try again."
  | .duplicate =>
      "A submission with this email or phone number was already received recently. Please wait before submitting again."
  | .created _ _ _ => "Thank you for your inquiry! We will contact you within 24 hours."

/-- `Contact.findOne` for the duplicate check: any record whose email or
phone matches, with `submittedAt` at or after the window start. -/
def findRecentByContact (recs : List Submission) (email phone : String)
    (windowStart : Int) : Option Submission :=
  recs.find? fun s =>
    ((s.email == email) || (s.phone == phone)) && decide (windowStart ≤ s.submittedAt)

def oneHourMs : Int := 60 * 60 * 1000

/-- Everything observable about one handled submission request: the HTTP
response, the resulting store, and the outcome of each of the two email
attempts (`none` when the attempt was never dispatched). -/
structure PostOutcome where
  response : SubmitResult
  store : Store
  adminNotification : Option (Except String Unit)
  autoReply : Option (Except String Unit)
deriving Repr

/-- `new Contact(\x7b name, email, phone, message, formType \x7d)` as saved:
the store assigns the id, the schema setters lowercase the email, and the
defaults fill `submittedAt = Date.now()` and `status = "new"`. -/
def newSubmission (st : Store) (now : Int) (r : ContactRequest) : Submission :=
  { id := st.nextId, name := r.name, email := toLowerStr r.email,
    phone := r.phone, message := r.message, formType := r.formType,
    submittedAt := now, status := "new" }

/-- The `POST /api/contact` handler. `ext` is the reCAPTCHA service
outcome; `adminSendFails`/`autoReplySendFails` are the outcomes of the two
SMTP sends; `now` is `Date.now()` at handling time. -/
def postContact (env : Env) (ext : ExtResult)
    (adminSendFails autoReplySendFails : Bool)
    (st : Store) (now : Int) (raw : ContactRequest) : PostOutcome :=
  let r := sanitize raw
  let errs := validateContactForm r
  if !errs.isEmpty then
    ⟨.validationFailed errs, st, none, none⟩
  else if !verifyRecaptcha env ext r.recaptchaToken then
    ⟨.spamRejected, st, none, none⟩
  else
    match findRecentByContact st.recs r.email r.phone (now - oneHourMs) with
    | some _ => ⟨.duplicate, st, none, none⟩
    | none =>
      let sub := newSubmission st now r
      let st' : Store := ⟨st.recs ++ [sub], st.nextId + 1⟩
      if smtpConfigured env then
        ⟨.created sub.id sub.submittedAt sub.formType, st',
          some (sendContactNotification true adminSendFails),
          some (sendAutoReply true autoReplySendFails)⟩
      else
        ⟨.created sub.id sub.submittedAt sub.formType, st', none, none⟩

/-! ### GET /api/contacts (part_001 lines 321–348) -/

structure Pagination where
  page : Nat
  limit : Nat
  total : Nat
  pages : Nat
deriving Repr, DecidableEq

/-- The sort key of `.sort(\x7b submittedAt: -1 \x7d)`: later submissions
first. -/
def byDateDesc (a b : Submission) : Prop := b.submittedAt ≤ a.submittedAt

instance : DecidableRel byDateDesc := fun a b =>
  inferInstanceAs (Decidable (b.submittedAt ≤ a.submittedAt))

instance : IsTotal Submission byDateDesc :=
  ⟨fun a b => le_total b.submittedAt a.submittedAt⟩

instance : IsTrans Submission byDateDesc :=
  ⟨fun _ _ _ hab hbc => le_trans hbc hab⟩

/-- `Number.parseInt(q) || d`: a missing parameter, or one parsing to the
falsy 0, falls back to the default. -/
def queryVal (q : Option Nat) (d : Nat) : Nat :=
  match q with
  | none => d
  | some 0 => d
  | some (n + 1) => n + 1

/-- The `GET /api/contacts` handler: sort descending by `submittedAt`,
skip `(page-1)*limit`, take `limit`, and report
`total = countDocuments()` and `pages = Math.ceil(total / limit)`. -/
def listContacts (recs : List Submission) (pageQ limitQ : Option Nat) :
    List Submission × Pagination :=
  let page := queryVal pageQ 1
  let limit := queryVal limitQ 20
  let skip := (page - 1) * limit
  let sorted := List.insertionSort byDateDesc recs
  let items := (sorted.drop skip).take limit
  let total := recs.length
  (items, ⟨page, limit, total, (total + limit - 1) / limit⟩)

/-! ### PATCH /api/contacts/:id/status (part_001 lines 351–383) -/

inductive UpdateResult where
  | invalidStatus
  | notFound
  | serverError
  | updated (s : Submission)
deriving Repr, DecidableEq

def UpdateResult.httpStatus : UpdateResult → Nat
  | .invalidStatus => 400
  | .notFound => 404
  | .serverError => 500
  | .updated _ => 200

def UpdateResult.httpMessage : UpdateResult → String
  | .invalidStatus => "Invalid status value"
  | .notFound => "Contact not found"
  | .serverError => "Error updating contact status"
  | .updated _ => ""

def validStatuses : List String := ["new", "contacted", "converted"]

def isHexDigit (c : Char) : Bool :=
  isDigitChar c || (('a' ≤ c) && (c ≤ 'f')) || (('A' ≤ c) && (c ≤ 'F'))

/-- A well-formed Mongo ObjectId in its route-parameter form: 24 hex
characters. Anything else makes `findByIdAndUpdate` throw a CastError. -/
def isValidObjectIdStr (s : String) : Bool :=
  s.length == 24 && s.toList.all isHexDigit

def hexDigitVal (c : Char) : Nat :=
  if isDigitChar c then c.toNat - Char.toNat '0'
  else if ('a' ≤ c) && (c ≤ 'f') then c.toNat - Char.toNat 'a' + 10
  else c.toNat - Char.toNat 'A' + 10

/-- Mongoose's cast of the `:id` route parameter to an ObjectId, as the
numeric id the store assigned; `none` models the thrown CastError. -/
def castObjectId (s : String) : Option Nat :=
  if isValidObjectIdStr s then
    some (s.toList.foldl (fun acc c => acc * 16 + hexDigitVal c) 0)
  else none

/-- The `PATCH /api/contacts/:id/status` handler: the enum guard runs
first; then `findByIdAndUpdate` (throwing on a malformed id, which the
catch turns into a 500) updates the record and returns it. -/
def patchStatus (st : Store) (idStr newStatus : String) :
    UpdateResult × Store :=
  if !(validStatuses.contains newStatus) then
    (.invalidStatus, st)
  else
    match castObjectId idStr with
    | none => (.serverError, st)
    | some oid =>
      match st.recs.find? (fun s => s.id == oid) with
      | none => (.notFound, st)
      | some r =>
        (.updated { r with status := newStatus },
         ⟨st.recs.map fun s =>
            if s.id == oid then { s with status := newStatus } else s,
          st.nextId⟩)

/-! ### Reachable stores

The store starts empty and is only ever touched by the two mutating
routes. -/

inductive Reachable : Store → Prop where
  | init : Reachable ⟨[], 0⟩
  | post (env : Env) (ext : ExtResult) (af uf : Bool) (st : Store)
      (now : Int) (raw : ContactRequest) : Reachable st →
      Reachable (postContact env ext af uf st now raw).store
  | patch (st : Store) (idStr ns : String) : Reachable st →
      Reachable (patchStatus st idStr ns).2

/-! ### Helper lemmas -/

section Lemmas

variable (env : Env) (ext : ExtResult) (af uf : Bool) (st : Store)
variable (now : Int) (raw : ContactRequest)

lemma postContact_of_invalid (h : validateContactForm (sanitize raw) ≠ []) :
    postContact env ext af uf st now raw =
      ⟨.validationFailed (validateContactForm (sanitize raw)), st, none, none⟩ := by
  have h' : (validateContactForm (sanitize raw)).isEmpty = false := by
    cases hv : validateContactForm (sanitize raw) with
    | nil => exact absurd hv h
    | cons a l => rfl
  unfold postContact
  simp [h']

lemma postContact_of_spamFail (hval : validateContactForm (sanitize raw) = [])
    (hspam : verifyRecaptcha env ext (sanitize raw).recaptchaToken = false) :
    postContact env ext af uf st now raw = ⟨.spamRejected, st, none, none⟩ := by
  unfold postContact
  simp [hval, hspam]

lemma postContact_of_duplicate (hval : validateContactForm (sanitize raw) = [])
    (hspam : verifyRecaptcha env ext (sanitize raw).recaptchaToken = true)
    (s : Submission)
    (hdup : findRecentByContact st.recs (sanitize raw).email
      (sanitize raw).phone (now - oneHourMs) = some s) :
    postContact env ext af uf st now raw = ⟨.duplicate, st, none, none⟩ := by
  unfold postContact
  simp [hval, hspam, hdup]

lemma postContact_of_fresh (hval : validateContactForm (sanitize raw) = [])
    (hspam : verifyRecaptcha env ext (sanitize raw).recaptchaToken = true)
    (hdup : findRecentByContact st.recs (sanitize raw).email
      (sanitize raw).phone (now - oneHourMs) = none) :
    postContact env ext af uf st now raw =
      ⟨.created st.nextId now (sanitize raw).formType,
        ⟨st.recs ++ [newSubmission st now (sanitize raw)], st.nextId + 1⟩,
        if smtpConfigured env then some (sendContactNotification true af) else none,
        if smtpConfigured env then some (sendAutoReply true uf) else none⟩ := by
  unfold postContact
  by_cases hs : smtpConfigured env <;>
    simp [hval, hspam, hdup, hs, newSubmission]

/-- The duplicate query finds something precisely when a record matching
the email or phone lies inside the window. -/
lemma findRecentByContact_isSome_iff (recs : List Submission)
    (email phone : String) (ws : Int) :
    (findRecentByContact recs email phone ws).isSome ↔
      ∃ s ∈ recs, (s.email = email ∨ s.phone = phone) ∧ ws ≤ s.submittedAt := by
  unfold findRecentByContact
  rw [List.find?_isSome]
  constructor
  · rintro ⟨s, hmem, hp⟩
    refine ⟨s, hmem, ?_⟩
    simp only [Bool.and_eq_true, Bool.or_eq_true, beq_iff_eq,
      decide_eq_true_eq] at hp
    exact hp
  · rintro ⟨s, hmem, hp⟩
    refine ⟨s, hmem, ?_⟩
    simp only [Bool.and_eq_true, Bool.or_eq_true, beq_iff_eq,
      decide_eq_true_eq]
    exact hp

lemma lowerChar_eq_of_not_upper {c : Char}
    (h : ¬(65 ≤ c.toNat ∧ c.toNat ≤ 90)) : lowerChar c = c := by
  unfold lowerChar
  rw [if_neg]
  intro hc
  simp only [Bool.and_eq_true, decide_eq_true_eq] at hc
  exact h ⟨Char.le_def.mp hc.1, Char.le_def.mp hc.2⟩

lemma lowerChar_toNat_of_upper {c : Char}
    (h : 65 ≤ c.toNat ∧ c.toNat ≤ 90) : (lowerChar c).toNat = c.toNat + 32 := by
  unfold lowerChar
  rw [if_pos]
  · have hv : (c.toNat + 32).isValidChar := by
      left
      omega
    unfold Char.ofNat
    rw [dif_pos hv]
    rfl
  · simp only [Bool.and_eq_true, decide_eq_true_eq]
    exact ⟨Char.le_def.mpr h.1, Char.le_def.mpr h.2⟩

lemma lowerChar_idem (c : Char) : lowerChar (lowerChar c) = lowerChar c := by
  by_cases h : 65 ≤ c.toNat ∧ c.toNat ≤ 90
  · have ht := lowerChar_toNat_of_upper h
    apply lowerChar_eq_of_not_upper
    omega
  · rw [lowerChar_eq_of_not_upper h, lowerChar_eq_of_not_upper h]

lemma toLowerStr_idem (s : String) : toLowerStr (toLowerStr s) = toLowerStr s := by
  unfold toLowerStr
  simp only [List.map_map]
  congr 1
  exact List.map_congr_left fun c _ => lowerChar_idem c

end Lemmas

/-! ### Concrete fixtures (the scenario of spec §8) -/

def janeReq : ContactRequest :=
  { name := "Jane Doe", email := "JANE@X.COM", phone := "9876543210",
    message := "Interested in your product", formType := "hero",
    recaptchaToken := "test_token" }

def sub0 : Submission :=
  { id := 0, name := "Jane Doe", email := "jane@x.com", phone := "9876543210",
    message := "Interested in your product", formType := "hero",
    submittedAt := 1000000, status := "new" }

def st1 : Store := ⟨[sub0], 1⟩

def badReq : ContactRequest :=
  { name := "J4", email := "not-an-email", phone := "12345",
    message := "short", formType := "other", recaptchaToken := "" }

def envDev : Env := ⟨true, none, false, false⟩

/-! ### Claim theorems -/

/-- C3: `verifyRecaptcha` returns true when the deployment skips
verification (development mode), when the token is a recognized bypass
sentinel, or when no verification secret is configured; otherwise it
returns the external service verdict, and on a transport/timeout error it
returns true exactly when the deployment is in development mode. -/
theorem verifyRecaptcha_policy (env : Env) (ext : ExtResult) (token : String) :
    (env.nodeEnvDevelopment = true → verifyRecaptcha env ext token = true) ∧
    (isBypassToken token = true → verifyRecaptcha env ext token = true) ∧
    (env.recaptchaSecret = none → verifyRecaptcha env ext token = true) ∧
    (env.nodeEnvDevelopment = false → isBypassToken token = false →
      ∀ secret, env.recaptchaSecret = some secret →
        ∀ verdict, ext = .ok verdict → verifyRecaptcha env ext token = verdict) ∧
    (isBypassToken token = false →
      ∀ secret, env.recaptchaSecret = some secret → ext = .err →
        (verifyRecaptcha env ext token = true ↔ env.nodeEnvDevelopment = true)) := by
  refine ⟨?_, ?_, ?_, ?_, ?_⟩
  · intro h
    simp [verifyRecaptcha, h]
  · intro h
    by_cases hd : env.nodeEnvDevelopment <;> simp [verifyRecaptcha, h, hd]
  · intro h
    by_cases hd : env.nodeEnvDevelopment <;>
      by_cases hb : isBypassToken token <;> simp [verifyRecaptcha, h, hd, hb]
  · intro hd hb secret hs verdict hext
    simp [verifyRecaptcha, hd, hb, hs, hext]
  · intro hb secret hs hext
    by_cases hd : env.nodeEnvDevelopment <;>
      simp [verifyRecaptcha, hb, hs, hext, hd]

/-- Witness for C3: with a configured secret, a non-sentinel token and a
transport error, the gate fails closed in production mode. -/
theorem verifyRecaptcha_policy_witness :
    verifyRecaptcha ⟨false, some "secretkey", false, false⟩ ExtResult.err
        "livetoken" = true ↔
      Env.nodeEnvDevelopment ⟨false, some "secretkey", false, false⟩ = true :=
  (verifyRecaptcha_policy ⟨false, some "secretkey", false, false⟩
    ExtResult.err "livetoken").2.2.2.2 (by decide) "secretkey" rfl rfl

/-- C10: a route id that is not a well-formed ObjectId makes
`findByIdAndUpdate` throw, so with a valid enumerated status the handler
answers 500 "Error updating contact status" rather than 404, and leaves
the store untouched. -/
theorem patchStatus_malformed_id (st : Store) (idStr ns : String)
    (hns : validStatuses.contains ns = true)
    (hbad : castObjectId idStr = none) :
    patchStatus st idStr ns = (.serverError, st) ∧
    UpdateResult.serverError.httpStatus = 500 ∧
    UpdateResult.serverError.httpMessage = "Error updating contact status" := by
  refine ⟨?_, rfl, rfl⟩
  have hmem : ns ∈ validStatuses := by simpa using hns
  unfold patchStatus
  simp [hmem, hbad]

/-- Witness for C10: `"abc"` is not castable, status `"contacted"` is
enumerated, and the response is the 500 branch. -/
theorem patchStatus_malformed_id_witness :
    patchStatus ⟨[], 0⟩ "abc" "contacted" = (.serverError, ⟨[], 0⟩) :=
  (patchStatus_malformed_id ⟨[], 0⟩ "abc" "contacted"
    (by decide) (by decide)).1

/-- C5: the status-update route rejects a non-enumerated status with 400
without mutating anything, answers 404 on an unknown id, and on an
existing id with an enumerated status returns the updated record whose
status is the new one. -/
theorem patchStatus_spec (st : Store) (idStr ns : String) :
    (validStatuses.contains ns = false →
      patchStatus st idStr ns = (.invalidStatus, st) ∧
      UpdateResult.invalidStatus.httpStatus = 400) ∧
    (validStatuses.contains ns = true →
      ∀ oid, castObjectId idStr = some oid →
        (st.recs.find? (fun s => s.id == oid) = none →
          patchStatus st idStr ns = (.notFound, st) ∧
          UpdateResult.notFound.httpStatus = 404) ∧
        (∀ r, st.recs.find? (fun s => s.id == oid) = some r →
          (patchStatus st idStr ns).1 = .updated { r with status := ns } ∧
          ({ r with status := ns } : Submission).status = ns ∧
          (patchStatus st idStr ns).1.httpStatus = 200)) := by
  constructor
  · intro h
    have hmem : ns ∉ validStatuses := by simpa using h
    refine ⟨?_, rfl⟩
    unfold patchStatus
    simp [hmem]
  · intro h oid hcast
    have hmem : ns ∈ validStatuses := by simpa using h
    constructor
    · intro hfind
      refine ⟨?_, rfl⟩
      unfold patchStatus
      simp [hmem, hcast, hfind]
    · intro r hfind
      have hps : (patchStatus st idStr ns).1 = .updated { r with status := ns } := by
        unfold patchStatus
        simp [hmem, hcast, hfind]
      exact ⟨hps, rfl, by rw [hps]; rfl⟩

/-- Witness for C5: updating the only record of a one-record store to
`"contacted"` returns that record with the new status. -/
theorem patchStatus_spec_witness :
    (patchStatus st1 "000000000000000000000000" "contacted").1 =
      .updated { sub0 with status := "contacted" } :=
  (((patchStatus_spec st1 "000000000000000000000000" "contacted").2
    (by decide) 0 (by decide)).2 sub0 (by decide)).1

/-- C2: when any field of the (sanitized) request violates its rule, the
submission route answers 400 "Validation failed" carrying the full
collected list of per-field violations — the concatenation of every
field's errors — and neither the spam gate, the duplicate check, nor
persistence is reached: the environment, the external verdict and the
store are arbitrary, the store is returned unchanged, and no notification
is attempted. -/
theorem validation_rejects_and_collects (env : Env) (ext : ExtResult)
    (af uf : Bool) (st : Store) (now : Int) (raw : ContactRequest)
    (h : validateContactForm (sanitize raw) ≠ []) :
    (postContact env ext af uf st now raw).response =
      .validationFailed (validateContactForm (sanitize raw)) ∧
    (postContact env ext af uf st now raw).response.httpStatus = 400 ∧
    (postContact env ext af uf st now raw).response.httpMessage =
      "Validation failed" ∧
    (postContact env ext af uf st now raw).store = st ∧
    (postContact env ext af uf st now raw).adminNotification = none ∧
    (postContact env ext af uf st now raw).autoReply = none ∧
    validateContactForm (sanitize raw) =
      nameErrors (sanitize raw).name ++ emailErrors (sanitize raw).email ++
      phoneErrors (sanitize raw).phone ++
      messageErrors (sanitize raw).message ++
      formTypeErrors (sanitize raw).formType ++
      tokenErrors (sanitize raw).recaptchaToken := by
  rw [postContact_of_invalid env ext af uf st now raw h]
  exact ⟨rfl, rfl, rfl, rfl, rfl, rfl, rfl⟩

/-- Witness for C2: a request violating every field rule is answered with
the collected validation errors. -/
theorem validation_rejects_and_collects_witness :
    (postContact envDev ExtResult.err false false ⟨[], 0⟩ 0 badReq).response =
      .validationFailed (validateContactForm (sanitize badReq)) :=
  (validation_rejects_and_collects envDev ExtResult.err false false
    ⟨[], 0⟩ 0 badReq (by decide)).1

/-- C1: past validation and the spam gate, if some stored record shares
the email or the phone of the (sanitized) request and lies within the
1-hour window, the route answers 429 and the store is unchanged; if no
such record exists — in particular once the window has elapsed — the same
request is answered 201 and exactly one new record is appended. -/
theorem duplicate_window_policy (env : Env) (ext : ExtResult) (af uf : Bool)
    (st : Store) (now : Int) (raw : ContactRequest)
    (hval : validateContactForm (sanitize raw) = [])
    (hspam : verifyRecaptcha env ext (sanitize raw).recaptchaToken = true) :
    ((∃ s ∈ st.recs,
        (s.email = (sanitize raw).email ∨ s.phone = (sanitize raw).phone) ∧
        now - oneHourMs ≤ s.submittedAt) →
      (postContact env ext af uf st now raw).response = .duplicate ∧
      SubmitResult.duplicate.httpStatus = 429 ∧
      (postContact env ext af uf st now raw).store = st) ∧
    ((∀ s ∈ st.recs,
        ¬((s.email = (sanitize raw).email ∨ s.phone = (sanitize raw).phone) ∧
          now - oneHourMs ≤ s.submittedAt)) →
      (postContact env ext af uf st now raw).response =
        .created st.nextId now (sanitize raw).formType ∧
      SubmitResult.httpStatus
        (.created st.nextId now (sanitize raw).formType) = 201 ∧
      (postContact env ext af uf st now raw).store.recs =
        st.recs ++ [newSubmission st now (sanitize raw)]) := by
  constructor
  · intro hex
    have hsome : (findRecentByContact st.recs (sanitize raw).email
        (sanitize raw).phone (now - oneHourMs)).isSome :=
      (findRecentByContact_isSome_iff st.recs (sanitize raw).email
        (sanitize raw).phone (now - oneHourMs)).mpr hex
    obtain ⟨s, hs⟩ := Option.isSome_iff_exists.mp hsome
    rw [postContact_of_duplicate env ext af uf st now raw hval hspam s hs]
    exact ⟨rfl, rfl, rfl⟩
  · intro hforall
    have hnone : findRecentByContact st.recs (sanitize raw).email
        (sanitize raw).phone (now - oneHourMs) = none := by
      rw [← Option.not_isSome_iff_eq_none, findRecentByContact_isSome_iff]
      rintro ⟨s, hmem, hp⟩
      exact hforall s hmem hp
    rw [postContact_of_fresh env ext af uf st now raw hval hspam hnone]
    exact ⟨rfl, rfl, rfl⟩

/-- Witness for C1: Jane resubmits one millisecond after her stored
submission, well inside the window, and is answered 429. -/
theorem duplicate_window_policy_witness :
    (postContact envDev ExtResult.err false false st1 1000001 janeReq).response =
      SubmitResult.duplicate :=
  ((duplicate_window_policy envDev ExtResult.err false false st1 1000001
    janeReq (by decide) (by decide)).1
    ⟨sub0, by decide, by decide⟩).1

/-- C4: past every gate, the route appends exactly one record with status
`"new"`, `submittedAt = now`, the email stored lowercased (after
trimming), the other fields as sanitized, the store-assigned id, and
answers 201 whose payload is exactly the id, the timestamp and the form
type of that record. -/
theorem persist_and_respond (env : Env) (ext : ExtResult) (af uf : Bool)
    (st : Store) (now : Int) (raw : ContactRequest)
    (hval : validateContactForm (sanitize raw) = [])
    (hspam : verifyRecaptcha env ext (sanitize raw).recaptchaToken = true)
    (hdup : findRecentByContact st.recs (sanitize raw).email
      (sanitize raw).phone (now - oneHourMs) = none) :
    ∃ sub : Submission,
      (postContact env ext af uf st now raw).store.recs = st.recs ++ [sub] ∧
      (postContact env ext af uf st now raw).store.nextId = st.nextId + 1 ∧
      sub.id = st.nextId ∧
      sub.status = "new" ∧
      sub.submittedAt = now ∧
      sub.email = toLowerStr (jsTrim raw.email) ∧
      sub.name = jsTrim raw.name ∧
      sub.phone = jsTrim raw.phone ∧
      sub.message = jsTrim raw.message ∧
      sub.formType = raw.formType ∧
      (postContact env ext af uf st now raw).response =
        .created sub.id sub.submittedAt sub.formType ∧
      SubmitResult.httpStatus
        (.created sub.id sub.submittedAt sub.formType) = 201 := by
  refine ⟨newSubmission st now (sanitize raw), ?_⟩
  rw [postContact_of_fresh env ext af uf st now raw hval hspam hdup]
  exact ⟨rfl, rfl, rfl, rfl, rfl, toLowerStr_idem (jsTrim raw.email),
    rfl, rfl, rfl, rfl, rfl, rfl⟩

/-- Witness for C4: the spec §8 scenario — Jane submits on an empty store
in development mode and a record is created. -/
theorem persist_and_respond_witness :
    ∃ sub : Submission,
      (postContact envDev ExtResult.err false false ⟨[], 0⟩ 5 janeReq).store.recs
          = [] ++ [sub] ∧
      (postContact envDev ExtResult.err false false ⟨[], 0⟩ 5 janeReq).store.nextId
          = 0 + 1 ∧
      sub.id = 0 ∧
      sub.status = "new" ∧
      sub.submittedAt = 5 ∧
      sub.email = toLowerStr (jsTrim janeReq.email) ∧
      sub.name = jsTrim janeReq.name ∧
      sub.phone = jsTrim janeReq.phone ∧
      sub.message = jsTrim janeReq.message ∧
      sub.formType = janeReq.formType ∧
      (postContact envDev ExtResult.err false false ⟨[], 0⟩ 5 janeReq).response =
        .created sub.id sub.submittedAt sub.formType ∧
      SubmitResult.httpStatus
        (.created sub.id sub.submittedAt sub.formType) = 201 :=
  persist_and_respond envDev ExtResult.err false false ⟨[], 0⟩ 5 janeReq
    (by decide) (by decide) (by decide)

/-- C7: the HTTP response and the resulting store never depend on the
outcome of either notification attempt; each attempt's outcome is
independent of the other's; and when SMTP is unconfigured no attempt is
dispatched and each email-service call is a no-op returning success. -/
theorem notifications_best_effort (env : Env) (ext : ExtResult)
    (af uf af' uf' : Bool) (st : Store) (now : Int) (raw : ContactRequest) :
    ((postContact env ext af uf st now raw).response =
      (postContact env ext af' uf' st now raw).response) ∧
    ((postContact env ext af uf st now raw).store =
      (postContact env ext af' uf' st now raw).store) ∧
    ((postContact env ext af uf st now raw).adminNotification =
      (postContact env ext af uf' st now raw).adminNotification) ∧
    ((postContact env ext af uf st now raw).autoReply =
      (postContact env ext af' uf st now raw).autoReply) ∧
    (smtpConfigured env = false →
      (postContact env ext af uf st now raw).adminNotification = none ∧
      (postContact env ext af uf st now raw).autoReply = none ∧
      sendContactNotification (smtpConfigured env) af = .ok () ∧
      sendAutoReply (smtpConfigured env) uf = .ok ()) := by
  have hok : ∀ b : Bool, sendContactNotification false b = .ok () :=
    fun _ => rfl
  have hok' : ∀ b : Bool, sendAutoReply false b = .ok () := fun _ => rfl
  by_cases hval : validateContactForm (sanitize raw) = []
  · by_cases hspam :
      verifyRecaptcha env ext (sanitize raw).recaptchaToken = true
    · cases hdup : findRecentByContact st.recs (sanitize raw).email
        (sanitize raw).phone (now - oneHourMs) with
      | some s =>
        rw [postContact_of_duplicate env ext af uf st now raw hval hspam s hdup,
            postContact_of_duplicate env ext af' uf' st now raw hval hspam s hdup,
            postContact_of_duplicate env ext af uf' st now raw hval hspam s hdup,
            postContact_of_duplicate env ext af' uf st now raw hval hspam s hdup]
        exact ⟨rfl, rfl, rfl, rfl,
          fun h => ⟨rfl, rfl, by rw [h]; exact hok af, by rw [h]; exact hok' uf⟩⟩
      | none =>
        rw [postContact_of_fresh env ext af uf st now raw hval hspam hdup,
            postContact_of_fresh env ext af' uf' st now raw hval hspam hdup,
            postContact_of_fresh env ext af uf' st now raw hval hspam hdup,
            postContact_of_fresh env ext af' uf st now raw hval hspam hdup]
        exact ⟨rfl, rfl, rfl, rfl,
          fun h => ⟨by simp [h], by simp [h],
            by rw [h]; exact hok af, by rw [h]; exact hok' uf⟩⟩
    · have hspam' :
          verifyRecaptcha env ext (sanitize raw).recaptchaToken = false := by
        revert hspam
        cases verifyRecaptcha env ext (sanitize raw).recaptchaToken <;> simp
      rw [postContact_of_spamFail env ext af uf st now raw hval hspam',
          postContact_of_spamFail env ext af' uf' st now raw hval hspam',
          postContact_of_spamFail env ext af uf' st now raw hval hspam',
          postContact_of_spamFail env ext af' uf st now raw hval hspam']
      exact ⟨rfl, rfl, rfl, rfl,
        fun h => ⟨rfl, rfl, by rw [h]; exact hok af, by rw [h]; exact hok' uf⟩⟩
  · rw [postContact_of_invalid env ext af uf st now raw hval,
        postContact_of_invalid env ext af' uf' st now raw hval,
        postContact_of_invalid env ext af uf' st now raw hval,
        postContact_of_invalid env ext af' uf st now raw hval]
    exact ⟨rfl, rfl, rfl, rfl,
      fun h => ⟨rfl, rfl, by rw [h]; exact hok af, by rw [h]; exact hok' uf⟩⟩

/-- Witness for C7: with SMTP unconfigured both service calls succeed as
no-ops and no attempt is dispatched. -/
theorem notifications_best_effort_witness :
    (postContact envDev ExtResult.err true true ⟨[], 0⟩ 5 janeReq).adminNotification
        = none ∧
    (postContact envDev ExtResult.err true true ⟨[], 0⟩ 5 janeReq).autoReply
        = none ∧
    sendContactNotification (smtpConfigured envDev) true = .ok () ∧
    sendAutoReply (smtpConfigured envDev) true = .ok () :=
  (notifications_best_effort envDev ExtResult.err true true false false
    ⟨[], 0⟩ 5 janeReq).2.2.2.2 (by decide)

/-- C9: on an existing id with an enumerated status, the update changes
only the `status` field of the matching record: every other field of
every record, the relative positions of all records, and the id counter
are unchanged, and records with a different id are untouched. -/
theorem patchStatus_frame (st : Store) (idStr ns : String) (oid : Nat)
    (r : Submission)
    (hns : validStatuses.contains ns = true)
    (hcast : castObjectId idStr = some oid)
    (hfind : st.recs.find? (fun s => s.id == oid) = some r) :
    (patchStatus st idStr ns).2.recs.length = st.recs.length ∧
    (patchStatus st idStr ns).2.nextId = st.nextId ∧
    ∀ (i : Nat) (s s' : Submission), st.recs[i]? = some s →
      (patchStatus st idStr ns).2.recs[i]? = some s' →
      s'.id = s.id ∧ s'.name = s.name ∧ s'.email = s.email ∧
      s'.phone = s.phone ∧ s'.message = s.message ∧
      s'.formType = s.formType ∧ s'.submittedAt = s.submittedAt ∧
      (s.id ≠ oid → s' = s) ∧ (s.id = oid → s'.status = ns) := by
  have hmem : ns ∈ validStatuses := by simpa using hns
  have hps : (patchStatus st idStr ns).2 =
      ⟨st.recs.map fun s =>
        if s.id == oid then { s with status := ns } else s, st.nextId⟩ := by
    unfold patchStatus
    simp [hmem, hcast, hfind]
  rw [hps]
  refine ⟨by simp, rfl, ?_⟩
  intro i s s' hs hs'
  simp only [List.getElem?_map, hs, Option.map_some'] at hs'
  have hs'' : s' = if s.id == oid then { s with status := ns } else s :=
    (Option.some_inj.mp hs').symm
  by_cases hid : s.id = oid
  · subst hs''
    simp [hid]
  · subst hs''
    simp [hid]

/-- Witness for C9: updating the single record of the one-record store
leaves its count and every non-status field in place. -/
theorem patchStatus_frame_witness :
    (patchStatus st1 "000000000000000000000000" "contacted").2.recs.length =
      st1.recs.length :=
  (patchStatus_frame st1 "000000000000000000000000" "contacted" 0 sub0
    (by decide) (by decide) (by decide)).1

/-- The bound the listing needs: `queryVal` of a positive default is
positive. -/
lemma queryVal_pos (q : Option Nat) (d : Nat) (hd : 1 ≤ d) :
    1 ≤ queryVal q d := by
  match q with
  | none => exact hd
  | some 0 => exact hd
  | some (n + 1) => exact Nat.succ_le_succ (Nat.zero_le n)

/-- C6: the listing returns items sorted by `submittedAt` descending,
reports `total` as the full record count whatever the page and page size,
reports `pages` as the ceiling of `total / limit` (characterized by its
Galois property), and an out-of-range page yields an empty item list. -/
theorem listContacts_spec (recs : List Submission) (pageQ limitQ : Option Nat) :
    List.Sorted byDateDesc (listContacts recs pageQ limitQ).1 ∧
    (listContacts recs pageQ limitQ).2.total = recs.length ∧
    (listContacts recs pageQ limitQ).2.page = queryVal pageQ 1 ∧
    (listContacts recs pageQ limitQ).2.limit = queryVal limitQ 20 ∧
    (∀ k : Nat, (listContacts recs pageQ limitQ).2.pages ≤ k ↔
      recs.length ≤ k * queryVal limitQ 20) ∧
    (recs.length ≤ (queryVal pageQ 1 - 1) * queryVal limitQ 20 →
      (listContacts recs pageQ limitQ).1 = []) := by
  have hl : 1 ≤ queryVal limitQ 20 := queryVal_pos limitQ 20 (by omega)
  refine ⟨?_, rfl, rfl, rfl, ?_, ?_⟩
  · exact List.Pairwise.sublist
      ((List.take_sublist _ _).trans (List.drop_sublist _ _))
      (List.sorted_insertionSort byDateDesc recs)
  · intro k
    show (recs.length + queryVal limitQ 20 - 1) / queryVal limitQ 20 ≤ k ↔ _
    rw [Nat.div_le_iff_le_mul_add_pred (by omega),
      Nat.mul_comm (queryVal limitQ 20) k]
    generalize k * queryVal limitQ 20 = m
    omega
  · intro h
    show ((List.insertionSort byDateDesc recs).drop
      ((queryVal pageQ 1 - 1) * queryVal limitQ 20)).take (queryVal limitQ 20) = []
    rw [List.drop_eq_nil_of_le]
    · exact List.take_nil
    · rw [List.length_insertionSort]
      omega

/-- Witness for C6: page 2 of a one-record store at the default page size
is out of range and comes back empty. -/
theorem listContacts_spec_witness :
    (listContacts st1.recs (some 2) (some 20)).1 = [] :=
  (listContacts_spec st1.recs (some 2) (some 20)).2.2.2.2.2 (by decide)

/-- The submission route either leaves the store alone or appends the one
freshly built record. -/
lemma postContact_store_cases (env : Env) (ext : ExtResult) (af uf : Bool)
    (st : Store) (now : Int) (raw : ContactRequest) :
    (postContact env ext af uf st now raw).store = st ∨
    (postContact env ext af uf st now raw).store =
      ⟨st.recs ++ [newSubmission st now (sanitize raw)], st.nextId + 1⟩ := by
  by_cases hval : validateContactForm (sanitize raw) = []
  · by_cases hspam :
      verifyRecaptcha env ext (sanitize raw).recaptchaToken = true
    · cases hdup : findRecentByContact st.recs (sanitize raw).email
        (sanitize raw).phone (now - oneHourMs) with
      | some s =>
        left
        rw [postContact_of_duplicate env ext af uf st now raw hval hspam s hdup]
      | none =>
        right
        rw [postContact_of_fresh env ext af uf st now raw hval hspam hdup]
    · left
      have hspam' :
          verifyRecaptcha env ext (sanitize raw).recaptchaToken = false := by
        revert hspam
        cases verifyRecaptcha env ext (sanitize raw).recaptchaToken <;> simp
      rw [postContact_of_spamFail env ext af uf st now raw hval hspam']
  · left
    rw [postContact_of_invalid env ext af uf st now raw hval]

/-- The status route preserves "every stored status is enumerated". -/
lemma patchStatus_preserves_statuses (st : Store) (idStr ns : String)
    (ih : ∀ r ∈ st.recs, validStatuses.contains r.status = true) :
    ∀ r ∈ (patchStatus st idStr ns).2.recs,
      validStatuses.contains r.status = true := by
  by_cases hns : ns ∈ validStatuses
  · cases hc : castObjectId idStr with
    | none =>
      unfold patchStatus
      simpa [hns, hc] using ih
    | some oid =>
      cases hf : st.recs.find? (fun s => s.id == oid) with
      | none =>
        unfold patchStatus
        simpa [hns, hc, hf] using ih
      | some r0 =>
        have hrecs : (patchStatus st idStr ns).2.recs =
            st.recs.map fun s =>
              if s.id == oid then { s with status := ns } else s := by
          unfold patchStatus
          simp [hns, hc, hf]
        rw [hrecs]
        intro r hr
        rw [List.mem_map] at hr
        obtain ⟨s, hs, rfl⟩ := hr
        by_cases hid : s.id = oid
        · simpa [hid] using hns
        · simpa [hid] using ih s hs
  · unfold patchStatus
    simpa [hns] using ih

/-- C8: in every reachable store each record's status is one of
`new`, `contacted`, `converted`: insertion writes `"new"` and the status
route's enum guard rejects anything else before mutating. -/
theorem status_invariant (st : Store) (h : Reachable st) :
    ∀ r ∈ st.recs, validStatuses.contains r.status = true := by
  induction h with
  | init =>
    intro r hr
    cases hr
  | post env ext af uf st now raw _ ih =>
    rcases postContact_store_cases env ext af uf st now raw with hc | hc <;>
      rw [hc]
    · exact ih
    · intro r hr
      rw [List.mem_append] at hr
      rcases hr with hr | hr
      · exact ih r hr
      · rw [List.mem_singleton] at hr
        subst hr
        rfl
  | patch st idStr ns _ ih =>
    exact patchStatus_preserves_statuses st idStr ns ih

/-- Witness for C8: the store reached by one successful submission on the
empty store satisfies the invariant. -/
theorem status_invariant_witness :
    validStatuses.contains
      (Submission.status (newSubmission ⟨[], 0⟩ 5 (sanitize janeReq))) = true :=
  status_invariant _
    (Reachable.post envDev ExtResult.err false false ⟨[], 0⟩ 5 janeReq
      Reachable.init)
    (newSubmission ⟨[], 0⟩ 5 (sanitize janeReq)) (by decide)

end ShopifyLanding
